import Mathlib

/-!
Verification of the IPX extensometer configuration software
(`IPX_production_Software/IPX_CLI`): a shallow embedding in Lean 4 of the
framed serial transport, the command/response protocol client, the
calibration validator / outlier detector, and the retry/escalation
helpers, together with proofs about the claims of the specification.

Conventions of the embedding:
* Python `str` values are modelled as `List Char` (Python string
  operations such as `strip`, `lower`, `startswith`, `split` are
  re-implemented below so that they are kernel-executable);
* Python `bytes` values are modelled as `List Nat` (one entry per byte,
  each `< 256`);
* Python exceptions are modelled by the inductive type `PyExn`; a
  function that can raise returns `Except PyExn α`;
* device-side numeric fields are integers (`Int`), matching the ASCII
  protocol; statistical computations that the source performs with
  floating point (`np.median`, division) are modelled over `ℚ`, and the
  transcendental functions `np.log1p` and `math.asin`/`math.degrees`
  are abstracted as function parameters, since no claim depends on
  their numeric values — only on equalities, zero tests and the domain
  guard;
* real time (`time.sleep`, idle timers) is abstracted away: the
  transport reader receives the list of chunk reads that arrive before
  the idle timeout would fire, and the repeated-sampling check receives
  the list of samples the serial round trips produced.
-/

/-- Python exception universe used by the embedding.  Each constructor
corresponds to an exception class raised somewhere in the source:
`UserAbortError` (Failure_handlers.py), the `IPXSerialError` family and
`CALIBRATION_CHECK_ERROR` (IPX.py), and the Python builtins that the
source can hit (`ValueError` from `int(...)`/`math.asin`, `IndexError`
from `raw_readings_list[0]`, `UnboundLocalError` from `return result`
in `retry_on_exception`'s skip branch). -/
inductive PyExn where
  | userAbortError
  | ipxSerialErrorNotConnected
  | ipxNoResponseError
  | ipxCorruptedDataError
  | ipxVerificationError (command expected actual : List Char)
  | calibrationCheckError
  | valueError
  | indexError
  | unboundLocalError
  | otherError (name : List Char)
deriving DecidableEq

instance {ε α : Type} [DecidableEq ε] [DecidableEq α] : DecidableEq (Except ε α) := fun a b =>
  match a, b with
  | .ok x, .ok y => decidable_of_iff (x = y) (by simp)
  | .error x, .error y => decidable_of_iff (x = y) (by simp)
  | .ok _, .error _ => isFalse (by simp)
  | .error _, .ok _ => isFalse (by simp)

/-! ## Python string primitives (over `List Char`) -/

/-- The characters Python's `str.strip()` removes. -/
def pyIsSpace (c : Char) : Bool :=
  c = ' ' || c = '\t' || c = '\n' || c = '\r' || c = '\x0b' || c = '\x0c'

/-- Python `str.strip()`. -/
def pyStrip (l : List Char) : List Char :=
  ((l.dropWhile pyIsSpace).reverse.dropWhile pyIsSpace).reverse

/-- Python `str.lower()` (ASCII range; the protocol text is ASCII). -/
def pyLower (l : List Char) : List Char := l.map Char.toLower

/-- Python `str.startswith(pre)`. -/
def pyStartswith (l pre : List Char) : Bool := pre.isPrefixOf l

/-- Python `sub in s` (contiguous substring test). -/
def pyContains (sub : List Char) : List Char → Bool
  | [] => sub.isPrefixOf []
  | c :: rest => sub.isPrefixOf (c :: rest) || pyContains sub rest

/-- Python `s.split(sep)` for a one-character separator (the source only
splits on `"\n"` and `","`). -/
def pySplit (sep : Char) (l : List Char) : List (List Char) :=
  l.foldr
    (fun c acc =>
      match acc with
      | h :: t => if c = sep then [] :: h :: t else (c :: h) :: t
      | [] => [[c]])
    [[]]

/-- Python `str(n)` for an integer `n`. -/
def intStr (n : Int) : List Char := (toString n).data

/-- Python `int(s)`: optional surrounding whitespace, optional sign,
then at least one digit (the underscore digit-grouping feature is not
used by the device protocol and is not modelled). -/
def pyInt? (s : List Char) : Option Int :=
  let t := pyStrip s
  let signAndDigits : Int × List Char :=
    match t with
    | '-' :: rest => (-1, rest)
    | '+' :: rest => (1, rest)
    | l => (1, l)
  let digits := signAndDigits.2
  if digits ≠ [] ∧ digits.all Char.isDigit then
    some (signAndDigits.1 * (digits.foldl (fun n c => 10 * n + (c.toNat - '0'.toNat)) 0 : Nat))
  else none

/-! ## Command table (`IPX_Config.py`, class `IPXCommands.Commands`)

Each command template of the table is an ASCII line with named
placeholders; `renderCommand` is the result of Python's
`template.format(...)` with the placeholder values supplied as strings.
One constructor per template, carrying that template's arguments. -/

inductive IPXCmd where
  | list_uids
  | get_status (uid : List Char)
  | get_raw (uid : List Char)
  | calibrate (uid : List Char)
  | set_baud (uid baud : List Char)
  | set_uid (current_uid new_uid : List Char)
  | set_axis (uid axis : List Char)
  | set_gain (uid gain : List Char)
  | set_centroid_threshold (uid threshold : List Char)
  | set_centroid_res (uid resolution : List Char)
  | set_n_stds (uid n_stds : List Char)
  | set_term (uid termination : List Char)
  | set_alias (uid aliasV : List Char)
  | get_GXM_measurement (uid : List Char)

/-- Python `template.format(...)` for each template of `IPXCommands.Commands`,
written with the placeholder values spliced into the literal text. -/
def renderCommand : IPXCmd → List Char
  | .list_uids => "op ipx 0 list_uids\n".data
  | .get_status uid => "op ipx ".data ++ uid ++ " get_status\n".data
  | .get_raw uid => "op ipx ".data ++ uid ++ " get_raw\n".data
  | .calibrate uid => "op ipx ".data ++ uid ++ " calibrate\n".data
  | .set_baud uid baud => "op ipx ".data ++ uid ++ " set_baud ".data ++ baud ++ "\n".data
  | .set_uid cu nu => "op ipx ".data ++ cu ++ " set_uid 567892 ".data ++ nu ++ "\n".data
  | .set_axis uid axis => "op ipx ".data ++ uid ++ " set_axis ".data ++ axis ++ "\n".data
  | .set_gain uid gain => "op ipx ".data ++ uid ++ " set_gain ".data ++ gain ++ "\n".data
  | .set_centroid_threshold uid thr =>
      "op ipx ".data ++ uid ++ " set_centroid_threshold ".data ++ thr ++ "\n".data
  | .set_centroid_res uid res =>
      "op ipx ".data ++ uid ++ " set_centroid_res ".data ++ res ++ "\n".data
  | .set_n_stds uid n => "op ipx ".data ++ uid ++ " set_n_stds ".data ++ n ++ "\n".data
  | .set_term uid term => "op ipx ".data ++ uid ++ " set_term ".data ++ term ++ "\n".data
  | .set_alias uid aliasV => "op ipx ".data ++ uid ++ " set_alias ".data ++ aliasV ++ "\n".data
  | .get_GXM_measurement uid => "@@".data ++ uid ++ " SR\r".data

/-- The placeholder values a command was rendered with. -/
def cmdArgs : IPXCmd → List (List Char)
  | .list_uids => []
  | .get_status uid => [uid]
  | .get_raw uid => [uid]
  | .calibrate uid => [uid]
  | .set_baud uid baud => [uid, baud]
  | .set_uid cu nu => [cu, nu]
  | .set_axis uid axis => [uid, axis]
  | .set_gain uid gain => [uid, gain]
  | .set_centroid_threshold uid thr => [uid, thr]
  | .set_centroid_res uid res => [uid, res]
  | .set_n_stds uid n => [uid, n]
  | .set_term uid term => [uid, term]
  | .set_alias uid aliasV => [uid, aliasV]
  | .get_GXM_measurement uid => [uid]

/-- A placeholder assignment is valid when no argument value contains a
newline character. -/
def NewlineFreeArgs (c : IPXCmd) : Prop := ∀ a ∈ cmdArgs c, '\n' ∉ a

instance (c : IPXCmd) : Decidable (NewlineFreeArgs c) := by
  unfold NewlineFreeArgs; infer_instance

/-- Whether a command is the Geosense ASCII-variant measurement command
(terminated by a carriage return, not a newline, in the source table). -/
def isGXM : IPXCmd → Bool
  | .get_GXM_measurement _ => true
  | _ => false

/-! ## Claim C10 — command rendering and line termination -/

/-- Claim C10 as stated is false: the command table
(`IPXCommands.Commands`, which includes the Geosense template
`get_GXM_measurement = "@@{uid} SR\r"`) has a template whose rendering
with a perfectly valid (newline-free) argument contains no newline at
all and ends in a carriage return instead. -/
theorem renderCommand_gxm_no_newline :
    '\n' ∉ "5".data ∧
    (renderCommand (.get_GXM_measurement "5".data)).count '\n' = 0 ∧
    (renderCommand (.get_GXM_measurement "5".data)).getLast? ≠ some '\n' := by
  decide

set_option maxHeartbeats 1600000 in
/-- Claim C10 (amended): rendering any command template of the table
with newline-free argument values yields a string with exactly one
newline, located at the end — except for the Geosense measurement
template `get_GXM_measurement`, which contains no newline and ends in a
single carriage return. -/
theorem renderCommand_single_trailing_newline (c : IPXCmd) (h : NewlineFreeArgs c) :
    if isGXM c then
      (renderCommand c).count '\n' = 0 ∧ (renderCommand c).getLast? = some '\r'
    else
      (renderCommand c).count '\n' = 1 ∧ (renderCommand c).getLast? = some '\n' := by
  have hcount : ∀ a ∈ cmdArgs c, a.count '\n' = 0 := fun a ha =>
    List.count_eq_zero.mpr (h a ha)
  cases c <;>
    refine ⟨?_, ?_⟩ <;>
    first
      | (rw [← List.head?_reverse]; simp [renderCommand, List.reverse_append])
      | simp [renderCommand, cmdArgs, List.count_append, hcount]

/-- Witness for `renderCommand_single_trailing_newline` at the concrete
command `get_status` rendered with uid `"7"`. -/
theorem renderCommand_single_trailing_newline_witness :
    NewlineFreeArgs (.get_status "7".data) ∧
    ((renderCommand (.get_status "7".data)).count '\n' = 1 ∧
      (renderCommand (.get_status "7".data)).getLast? = some '\n') := by
  refine ⟨by decide, ?_⟩
  have h := renderCommand_single_trailing_newline (.get_status "7".data) (by decide)
  simpa [isGXM] using h

/-! ## Calibration records and `validate_calibration_results` (IPX.py) -/

/-- One row of the calibration DataFrame: produced by matching
`"Sensor number N mean = M, standard dev = S axis A"` and converting the
four captured groups to `int`. -/
structure CalRecord where
  sensor_num : Int
  mean : Int
  std_dev : Int
  axis : Int
deriving DecidableEq

/-- NumPy `np.unique` on a one-dimensional integer column: the sorted list of
the distinct values. -/
def np_unique (l : List Int) : List Int :=
  List.insertionSort (· ≤ ·) l.dedup

/-- Source `IPXConfigurator.validate_calibration_results`: an empty DataFrame
fails with `(False, None)`; otherwise the rows with `mean == 0` or
`std_dev == 0` are selected, and if any exist the result is `(False,
unique failed sensor numbers)`, else `(True, None)`. -/
def validate_calibration_results (cal_df : List CalRecord) : Bool × Option (List Int) :=
  if cal_df = [] then (false, none)
  else
    let failed_df := cal_df.filter fun r => r.mean = 0 || r.std_dev = 0
    if failed_df ≠ [] then
      (false, some (np_unique (failed_df.map (·.sensor_num))))
    else (true, none)

/-- The elements of `np_unique l` are exactly those of `l`, sorted and
without duplicates. -/
theorem np_unique_spec (l : List Int) :
    (np_unique l).Sorted (· ≤ ·) ∧ (np_unique l).Nodup ∧ ∀ x, x ∈ np_unique l ↔ x ∈ l := by
  refine ⟨List.sorted_insertionSort _ _, ?_, fun x => ?_⟩
  · exact ((List.perm_insertionSort _ _).nodup_iff).mpr l.nodup_dedup
  · rw [np_unique, (List.perm_insertionSort _ _).mem_iff, List.mem_dedup]

/-! ## Claim C1 — calibration validation -/

/-- Claim C1 as stated is false on the empty record set: every record of
an empty set vacuously has `mean != 0` and `std_dev != 0`, so the claim
demands `(True, None)`, but `validate_calibration_results` explicitly
fails an empty DataFrame with `(False, None)`. -/
theorem validate_calibration_results_empty_counterexample :
    (∀ r ∈ ([] : List CalRecord), r.mean ≠ 0 ∧ r.std_dev ≠ 0) ∧
    validate_calibration_results [] ≠ (true, none) := by
  exact ⟨by simp, by decide⟩

/-- Claim C1 (amended): on an empty record set the validator returns
`(False, None)`; on a non-empty set it returns `(True, None)` iff every
record has `mean != 0` and `std_dev != 0`; and whenever some record
fails, it returns `(False, L)` where `L` is the sorted duplicate-free
list of exactly the sensor indices with at least one failing axis
record. -/
theorem validate_calibration_results_spec (cal_df : List CalRecord) :
    (cal_df = [] → validate_calibration_results cal_df = (false, none)) ∧
    (cal_df ≠ [] → (∀ r ∈ cal_df, r.mean ≠ 0 ∧ r.std_dev ≠ 0) →
      validate_calibration_results cal_df = (true, none)) ∧
    (∀ r₀ ∈ cal_df, (r₀.mean = 0 ∨ r₀.std_dev = 0) →
      ∃ L, validate_calibration_results cal_df = (false, some L) ∧
        L.Sorted (· ≤ ·) ∧ L.Nodup ∧
        ∀ x, (x ∈ L ↔ ∃ r ∈ cal_df, (r.mean = 0 ∨ r.std_dev = 0) ∧ r.sensor_num = x)) := by
  refine ⟨fun h => by simp [validate_calibration_results, h], fun hne hall => ?_, ?_⟩
  · have hfilter : cal_df.filter (fun r => r.mean = 0 || r.std_dev = 0) = [] := by
      refine List.filter_eq_nil_iff.mpr fun r hr => ?_
      have := hall r hr
      simp only [Bool.or_eq_true, decide_eq_true_eq, not_or]
      exact this.imp (fun h => h) (fun h => h)
    simp [validate_calibration_results, hne, hfilter]
  · intro r₀ hr₀ hfail
    have hmem : r₀ ∈ cal_df.filter (fun r => r.mean = 0 || r.std_dev = 0) := by
      rw [List.mem_filter]
      exact ⟨hr₀, by simpa using hfail⟩
    have hne : cal_df ≠ [] := by rintro rfl; simp at hr₀
    have hfne : cal_df.filter (fun r => r.mean = 0 || r.std_dev = 0) ≠ [] := by
      intro h; rw [h] at hmem; simp at hmem
    refine ⟨np_unique ((cal_df.filter fun r => r.mean = 0 || r.std_dev = 0).map (·.sensor_num)),
      ?_, (np_unique_spec _).1, (np_unique_spec _).2.1, fun x => ?_⟩
    · simp only [validate_calibration_results, if_neg hne]
      simp [hfne]
    · rw [(np_unique_spec _).2.2, List.mem_map]
      constructor
      · rintro ⟨r, hr, rfl⟩
        rw [List.mem_filter] at hr
        exact ⟨r, hr.1, by simpa using hr.2, rfl⟩
      · rintro ⟨r, hr, hf, rfl⟩
        exact ⟨r, List.mem_filter.mpr ⟨hr, by simpa using hf⟩, rfl⟩

/-- Witness for `validate_calibration_results_spec`: a single fully
non-zero record validates to `(True, None)`. -/
theorem validate_calibration_results_spec_witness :
    (([⟨1, 2, 3, 0⟩] : List CalRecord) ≠ [] ∧
      ∀ r ∈ ([⟨1, 2, 3, 0⟩] : List CalRecord), r.mean ≠ 0 ∧ r.std_dev ≠ 0) ∧
    validate_calibration_results [⟨1, 2, 3, 0⟩] = (true, none) :=
  ⟨⟨by decide, by decide⟩,
    (validate_calibration_results_spec [⟨1, 2, 3, 0⟩]).2.1 (by decide) (by decide)⟩

/-! ## `abnormal_high_magnitude_check` (IPX.py) — MAD outlier detector

The source computes with NumPy float64; the embedding computes over `ℚ`
and abstracts the transcendental `np.log1p` as a function parameter
`log1p : ℚ → ℚ`, since the claims about this detector depend only on
equalities of the compressed values, never on the numeric value of the
logarithm. -/

/-- NumPy `np.median` of a list: sort, then take the middle element (odd
length) or the mean of the two middle elements (even length). -/
def np_median (l : List ℚ) : ℚ :=
  let s := List.insertionSort (· ≤ ·) l
  let n := l.length
  if n = 0 then 0
  else if n % 2 = 1 then s.getD (n / 2) 0
  else (s.getD (n / 2 - 1) 0 + s.getD (n / 2) 0) / 2

/-- The compressed value list `y` of the check: the raw values sorted,
then (when `use_log` is set) compressed by `log1p ∘ abs`. -/
def hmc_y (log1p : ℚ → ℚ) (use_log : Bool) (raw_values : List Int) : List ℚ :=
  let sorted_values := List.insertionSort (· ≤ ·) raw_values
  if use_log then sorted_values.map (fun x : Int => log1p |(x : ℚ)|)
  else sorted_values.map (fun x : Int => (x : ℚ))

/-- The median of the compressed values. -/
def hmc_median (log1p : ℚ → ℚ) (use_log : Bool) (raw_values : List Int) : ℚ :=
  np_median (hmc_y log1p use_log raw_values)

/-- The median absolute deviation of the compressed values. -/
def hmc_mad (log1p : ℚ → ℚ) (use_log : Bool) (raw_values : List Int) : ℚ :=
  np_median ((hmc_y log1p use_log raw_values).map
    (fun v => |v - hmc_median log1p use_log raw_values|))

/-- Source `IPXConfigurator.abnormal_high_magnitude_check`: sorts the raw
values, optionally log-compresses them, computes the median and the
median absolute deviation, raises `CALIBRATION_CHECK_ERROR` when the
MAD is zero, and otherwise flags an outlier (returning `False`) when
some nonzero compressed value has modified z-score
`0.6745 * (v - median) / MAD` of magnitude above `threshold`. -/
def abnormal_high_magnitude_check (log1p : ℚ → ℚ) (raw_values : List Int)
    (threshold : ℚ := 3.5) (use_log : Bool := true) : Except PyExn Bool :=
  let y := hmc_y log1p use_log raw_values
  let median := hmc_median log1p use_log raw_values
  let mad_y := hmc_mad log1p use_log raw_values
  -- On an empty sample list `np.median` yields NaN, `NaN == 0` is false,
  -- and the per-value loop is vacuous, so the source returns True; over
  -- `ℚ` that NaN case must be split off explicitly.
  if y = [] then .ok true
  else if mad_y = 0 then .error .calibrationCheckError
  else if y.any (fun v => v ≠ 0 && |0.6745 * (v - median) / mad_y| > threshold) then
    .ok false
  else .ok true

/-- The `np_median` of a non-empty constant list is that constant. -/
theorem np_median_const (l : List ℚ) (d : ℚ) (hne : l ≠ []) (hconst : ∀ x ∈ l, x = d) :
    np_median l = d := by
  have hlen : 0 < l.length := List.length_pos.mpr hne
  have hslen : (List.insertionSort (· ≤ ·) l).length = l.length :=
    List.length_insertionSort _ _
  have hsconst : ∀ x ∈ List.insertionSort (· ≤ ·) l, x = d := fun x hx =>
    hconst x ((List.perm_insertionSort _ _).mem_iff.mp hx)
  have hget : ∀ i, i < l.length → (List.insertionSort (· ≤ ·) l).getD i 0 = d := by
    intro i hi
    have hi' : i < (List.insertionSort (· ≤ ·) l).length := by omega
    rw [List.getD_eq_getElem _ _ hi']
    exact hsconst _ (List.getElem_mem hi')
  unfold np_median
  rcases Nat.even_or_odd l.length with he | ho
  · have h2 : l.length % 2 = 0 := Nat.even_iff.mp he
    rw [if_neg (by omega : ¬ l.length = 0), if_neg (by omega : ¬ l.length % 2 = 1)]
    rw [hget _ (by omega), hget _ (by omega)]
    ring
  · have h2 : l.length % 2 = 1 := Nat.odd_iff.mp ho
    rw [if_neg (by omega : ¬ l.length = 0), if_pos h2]
    exact hget _ (by omega)

/-- Every compressed value of a constant sample list equals the
compression of that constant. -/
theorem hmc_y_const (log1p : ℚ → ℚ) (use_log : Bool) (raw_values : List Int) (c : Int)
    (hconst : ∀ x ∈ raw_values, x = c) :
    ∀ v ∈ hmc_y log1p use_log raw_values,
      v = if use_log then log1p |(c : ℚ)| else (c : ℚ) := by
  intro v hv
  have hsorted : ∀ x ∈ List.insertionSort (· ≤ ·) raw_values, x = c := fun x hx =>
    hconst x ((List.perm_insertionSort _ _).mem_iff.mp hx)
  unfold hmc_y at hv
  cases use_log
  · rw [if_neg (by simp : ¬ (false = true))] at hv
    rw [if_neg (by simp : ¬ (false = true))]
    obtain ⟨x, hx, rfl⟩ := List.mem_map.mp hv
    rw [hsorted x hx]
  · rw [if_pos rfl] at hv
    rw [if_pos rfl]
    obtain ⟨x, hx, rfl⟩ := List.mem_map.mp hv
    rw [hsorted x hx]

/-- The length of the compressed value list equals the raw length. -/
theorem hmc_y_length (log1p : ℚ → ℚ) (use_log : Bool) (raw_values : List Int) :
    (hmc_y log1p use_log raw_values).length = raw_values.length := by
  unfold hmc_y
  cases use_log <;> simp [List.length_insertionSort]

/-- A constant sample list has median absolute deviation zero. -/
theorem hmc_mad_const (log1p : ℚ → ℚ) (use_log : Bool) (raw_values : List Int) (c : Int)
    (hne : raw_values ≠ []) (hconst : ∀ x ∈ raw_values, x = c) :
    hmc_mad log1p use_log raw_values = 0 := by
  have hylen : (hmc_y log1p use_log raw_values).length = raw_values.length :=
    hmc_y_length _ _ _
  have hyne : hmc_y log1p use_log raw_values ≠ [] := by
    intro h
    exact hne (List.length_eq_zero.mp (by rw [← hylen, h]; rfl))
  set d : ℚ := if use_log then log1p |(c : ℚ)| else (c : ℚ) with hd
  have hyconst := hmc_y_const log1p use_log raw_values c hconst
  have hmed : hmc_median log1p use_log raw_values = d :=
    np_median_const _ d hyne (by intro x hx; rw [hyconst x hx])
  unfold hmc_mad
  refine np_median_const _ 0 (by simpa using hyne) ?_
  intro x hx
  obtain ⟨v, hv, rfl⟩ := List.mem_map.mp hx
  rw [hyconst v hv, hmed]
  simp

/-! ## Claim C2 — zero-MAD samples raise `CALIBRATION_CHECK_ERROR` -/

/-- Claim C2: for every non-empty sample list whose (possibly
log1p∘abs-compressed) sorted values have median absolute deviation
exactly zero — in particular every constant sample list — the
high-magnitude outlier check raises `CALIBRATION_CHECK_ERROR` instead
of returning a pass/fail boolean (and therefore never reaches the
z-score division). -/
theorem abnormal_high_magnitude_check_zero_mad (log1p : ℚ → ℚ) (threshold : ℚ)
    (use_log : Bool) (raw_values : List Int) (hne : raw_values ≠ []) :
    (hmc_mad log1p use_log raw_values = 0 →
      abnormal_high_magnitude_check log1p raw_values threshold use_log =
        .error .calibrationCheckError) ∧
    ∀ c : Int, (∀ x ∈ raw_values, x = c) →
      abnormal_high_magnitude_check log1p raw_values threshold use_log =
        .error .calibrationCheckError := by
  have hyne : hmc_y log1p use_log raw_values ≠ [] := by
    intro h
    exact hne (List.length_eq_zero.mp (by rw [← hmc_y_length log1p use_log raw_values, h]; rfl))
  constructor
  · intro hmad
    unfold abnormal_high_magnitude_check
    rw [if_neg hyne, if_pos hmad]
  · intro c hconst
    have hmad := hmc_mad_const log1p use_log raw_values c hne hconst
    unfold abnormal_high_magnitude_check
    rw [if_neg hyne, if_pos hmad]

/-- Witness for `abnormal_high_magnitude_check_zero_mad`: the constant
sample list `[7, 7, 7]` (with the compression parameter instantiated to
the identity) makes the check raise. -/
theorem abnormal_high_magnitude_check_zero_mad_witness :
    (([7, 7, 7] : List Int) ≠ [] ∧ ∀ x ∈ ([7, 7, 7] : List Int), x = 7) ∧
    abnormal_high_magnitude_check (fun q => q) [7, 7, 7] 3.5 true =
      .error .calibrationCheckError :=
  ⟨⟨by decide, by decide⟩,
    (abnormal_high_magnitude_check_zero_mad (fun q => q) 3.5 true [7, 7, 7] (by decide)).2
      7 (by decide)⟩

/-! ## `raw_data_check` (IPX.py) — stuck-sensor detection

The serial round trips (`ipx.get_raw(...)` once per reading, with a
0.5 s pause between them) are abstracted: the check receives the list
of raw samples those round trips produced, in order. -/

/-- The number of monitored indices whose value is exactly identical
between two consecutive raw samples (the inner counting loop of
`raw_data_check`; out-of-range indices, which would raise `IndexError`
in the source, are read as `0` and are not exercised by any theorem). -/
def num_no_change (tuple_1 tuple_2 : List Int) (sensor_index : List Nat) : Nat :=
  (sensor_index.filter fun i => tuple_1.getD i 0 = tuple_2.getD i 0).length

/-- Source `IPXConfigurator.raw_data_check`: runs the high-magnitude check on
the first sample (propagating its `CALIBRATION_CHECK_ERROR`, and
failing with `(False, first)` if it flags an outlier), then compares
each consecutive pair of samples at the monitored indices and fails
with `(False, first)` as soon as one pair has more than
`num_no_changes_allowed = 3` unchanged indices; otherwise it passes
with `(True, first)`.  An empty reading list would hit
`raw_readings_list[0]` (`IndexError`). -/
def raw_data_check (log1p : ℚ → ℚ) (raw_readings_list : List (List Int))
    (sensor_index : List Nat) : Except PyExn (Bool × List Int) :=
  match raw_readings_list with
  | [] => .error .indexError
  | first :: rest =>
    match abnormal_high_magnitude_check log1p first with
    | .error e => .error e
    | .ok false => .ok (false, first)
    | .ok true =>
      let pairs := (first :: rest).zip rest
      if pairs.any (fun p => num_no_change p.1 p.2 sensor_index > 3) then
        .ok (false, first)
      else .ok (true, first)

/-! ## Claim C8 — stuck-sensor check pass/fail characterisation -/

/-- Claim C8: when the first of the raw samples passes the magnitude
check, the stuck-sensor check returns `(False, first)` iff some
consecutive pair of samples agrees exactly at more than 3 of the
monitored indices, returns `(True, first)` otherwise, and in every
`ok` outcome the returned sample is the first one taken. -/
theorem raw_data_check_stuck_iff (log1p : ℚ → ℚ) (sensor_index : List Nat)
    (first : List Int) (rest : List (List Int))
    (hpass : abnormal_high_magnitude_check log1p first = .ok true) :
    (raw_data_check log1p (first :: rest) sensor_index = .ok (false, first) ↔
      ∃ p ∈ (first :: rest).zip rest, 3 < num_no_change p.1 p.2 sensor_index) ∧
    (raw_data_check log1p (first :: rest) sensor_index = .ok (true, first) ↔
      ¬ ∃ p ∈ (first :: rest).zip rest, 3 < num_no_change p.1 p.2 sensor_index) ∧
    ∀ b snap, raw_data_check log1p (first :: rest) sensor_index = .ok (b, snap) →
      snap = first := by
  have hunfold : raw_data_check log1p (first :: rest) sensor_index =
      if ((first :: rest).zip rest).any (fun p => num_no_change p.1 p.2 sensor_index > 3) then
        .ok (false, first)
      else .ok (true, first) := by
    show (match abnormal_high_magnitude_check log1p first with
      | Except.error e => Except.error e
      | Except.ok false => Except.ok (false, first)
      | Except.ok true =>
        if ((first :: rest).zip rest).any (fun p => num_no_change p.1 p.2 sensor_index > 3) then
          (Except.ok (false, first) : Except PyExn (Bool × List Int))
        else Except.ok (true, first)) = _
    rw [hpass]
  by_cases hstuck :
      ((first :: rest).zip rest).any (fun p => num_no_change p.1 p.2 sensor_index > 3) = true
  · have hex : ∃ p ∈ (first :: rest).zip rest, 3 < num_no_change p.1 p.2 sensor_index := by
      simpa using List.any_eq_true.mp hstuck
    rw [hunfold, if_pos hstuck]
    refine ⟨by simpa using hex, by simp [hex], ?_⟩
    intro b snap h
    exact ((by simpa using h : b = false ∧ first = snap).2).symm
  · have hnex : ¬ ∃ p ∈ (first :: rest).zip rest, 3 < num_no_change p.1 p.2 sensor_index := by
      intro hex
      exact hstuck (List.any_eq_true.mpr (by simpa using hex))
    rw [hunfold, if_neg hstuck]
    refine ⟨by simp [hnex], by simpa using hnex, ?_⟩
    intro b snap h
    exact ((by simpa using h : b = true ∧ first = snap).2).symm

/-- Concrete evaluation of the magnitude check on the sample `[1, 3]`
(identity compression): median 2, MAD 1, both modified z-scores of
magnitude `0.6745`, so the check passes. -/
theorem abnormal_high_magnitude_check_example :
    abnormal_high_magnitude_check (fun q => q) [1, 3] = .ok true := by
  norm_num [abnormal_high_magnitude_check, hmc_y, hmc_median, hmc_mad, np_median,
    List.insertionSort, List.orderedInsert]
  intro _
  rw [abs_of_nonneg (by norm_num)]
  norm_num

/-- Witness for `raw_data_check_stuck_iff`: two identical samples
`[1, 3]` monitored at the single index `0` show one unchanged index per
pair, which is within the allowance, so the check passes and returns
the first sample. -/
theorem raw_data_check_stuck_iff_witness :
    abnormal_high_magnitude_check (fun q => q) [1, 3] = .ok true ∧
    raw_data_check (fun q => q) [[1, 3], [1, 3]] [0] = .ok (true, [1, 3]) :=
  ⟨abnormal_high_magnitude_check_example,
    (raw_data_check_stuck_iff (fun q => q) [0] [1, 3] [[1, 3]]
      abnormal_high_magnitude_check_example).2.1.mpr (by decide)⟩

/-! ## UTF-8 codec (models Python `bytes.decode("utf-8")` / `str.encode`) -/

/-- Strict UTF-8 decoding of a byte list, accumulator form.  Returns
`none` on any invalid or incomplete sequence — Python raises
`UnicodeDecodeError` in both situations and the source treats them
alike. -/
def utf8DecodeAux : List Nat → List Char → Option (List Char)
  | [], acc => some acc.reverse
  | b :: rest, acc =>
    if b < 0x80 then utf8DecodeAux rest (Char.ofNat b :: acc)
    else if b < 0xC2 then none
    else if b < 0xE0 then
      match rest with
      | b1 :: rest' =>
        if 0x80 ≤ b1 ∧ b1 < 0xC0 then
          utf8DecodeAux rest' (Char.ofNat ((b - 0xC0) * 0x40 + (b1 - 0x80)) :: acc)
        else none
      | [] => none
    else if b < 0xF0 then
      match rest with
      | b1 :: b2 :: rest' =>
        if (if b = 0xE0 then 0xA0 ≤ b1 ∧ b1 < 0xC0
            else if b = 0xED then 0x80 ≤ b1 ∧ b1 < 0xA0
            else 0x80 ≤ b1 ∧ b1 < 0xC0) ∧ 0x80 ≤ b2 ∧ b2 < 0xC0 then
          utf8DecodeAux rest'
            (Char.ofNat ((b - 0xE0) * 0x1000 + (b1 - 0x80) * 0x40 + (b2 - 0x80)) :: acc)
        else none
      | _ => none
    else if b ≤ 0xF4 then
      match rest with
      | b1 :: b2 :: b3 :: rest' =>
        if (if b = 0xF0 then 0x90 ≤ b1 ∧ b1 < 0xC0
            else if b = 0xF4 then 0x80 ≤ b1 ∧ b1 < 0x90
            else 0x80 ≤ b1 ∧ b1 < 0xC0) ∧ 0x80 ≤ b2 ∧ b2 < 0xC0 ∧ 0x80 ≤ b3 ∧ b3 < 0xC0 then
          utf8DecodeAux rest'
            (Char.ofNat ((b - 0xF0) * 0x40000 + (b1 - 0x80) * 0x1000 +
              (b2 - 0x80) * 0x40 + (b3 - 0x80)) :: acc)
        else none
      | _ => none
    else none

/-- Strict UTF-8 decoding of a byte list. -/
def utf8Decode? (bytes : List Nat) : Option (List Char) := utf8DecodeAux bytes []

/-- UTF-8 encoding of one character. -/
def charUtf8 (c : Char) : List Nat :=
  let n := c.toNat
  if n < 0x80 then [n]
  else if n < 0x800 then [0xC0 + n / 0x40, 0x80 + n % 0x40]
  else if n < 0x10000 then [0xE0 + n / 0x1000, 0x80 + (n / 0x40) % 0x40, 0x80 + n % 0x40]
  else [0xF0 + n / 0x40000, 0x80 + (n / 0x1000) % 0x40, 0x80 + (n / 0x40) % 0x40, 0x80 + n % 0x40]

/-- UTF-8 encoding of a string. -/
def strBytes (s : List Char) : List Nat := (s.map charUtf8).flatten

/-! ## Framed transport reader (`IPXSerialCommunicator._send_and_receive_listen`)

Timing is abstracted: `first_byte` is the result of the blocking
one-byte read (`none` when the connection-level timeout fired first),
and `chunks` is the sequence of non-empty `in_waiting` reads that
arrive before the idle timer would expire; exhausting `chunks` is the
idle-timeout loop exit. -/

/-- The accumulation loop of `_send_and_receive_listen`: each arriving
chunk is appended to both the raw buffer and the line-decoding buffer;
the decoding buffer is decoded incrementally (an undecodable buffer is
treated as an incomplete multi-byte sequence and carried over whole); a
trailing partial line is re-encoded and carried over; and when a
non-empty terminator string occurs in one of the stripped complete
lines the loop stops after draining the current chunk. -/
def listenLoop (stop_on_string : Option (List Char)) :
    List (List Nat) → List Nat → List Nat → List Nat
  | [], all_responses, _ => all_responses
  | chunk :: rest, all_responses, decode_buffer =>
    let all_responses' := all_responses ++ chunk
    let decode_buffer' := decode_buffer ++ chunk
    match utf8Decode? decode_buffer' with
    | none => listenLoop stop_on_string rest all_responses' decode_buffer'
    | some decoded_text =>
      let lines := pySplit '\n' decoded_text
      let ends_nl := decoded_text.getLast? = some '\n'
      let carry : List Nat := if ends_nl then [] else strBytes (lines.getLastD [])
      let complete_lines := if ends_nl then lines else lines.dropLast
      let stop_reading_now :=
        match stop_on_string with
        | none => false
        | some pat =>
            pat ≠ [] && complete_lines.any fun line =>
              pyStrip line ≠ [] && pyContains pat (pyStrip line)
      if stop_reading_now then all_responses'
      else listenLoop stop_on_string rest all_responses' carry

/-- Source `IPXSerialCommunicator._send_and_receive_listen`: fails fast when
not connected; raises `IPXNoResponseError` when no first byte arrives;
otherwise accumulates from the first byte on, and raises
`IPXNoResponseError` rather than returning an empty response. -/
def send_and_receive_listen (connected : Bool) (first_byte : Option Nat)
    (chunks : List (List Nat)) (stop_on_string : Option (List Char)) :
    Except PyExn (List Nat) :=
  if connected = false then .error .ipxSerialErrorNotConnected
  else
    match first_byte with
    | none => .error .ipxNoResponseError
    | some b =>
      let response := listenLoop stop_on_string chunks [b] [b]
      if response = [] then .error .ipxNoResponseError
      else .ok response

/-- The accumulation loop only ever appends to the raw buffer, so a
non-empty buffer stays non-empty. -/
theorem listenLoop_ne_nil (stop_on_string : Option (List Char)) (chunks : List (List Nat))
    (acc dbuf : List Nat) (h : acc ≠ []) :
    listenLoop stop_on_string chunks acc dbuf ≠ [] := by
  induction chunks generalizing acc dbuf with
  | nil => simpa [listenLoop] using h
  | cons chunk rest ih =>
    have hne : acc ++ chunk ≠ [] := fun hc => h (List.append_eq_nil.mp hc).1
    rcases hdec : utf8Decode? (dbuf ++ chunk) with _ | text
    · simp only [listenLoop, hdec]
      exact ih _ _ hne
    · simp only [listenLoop, hdec]
      split <;> split <;> first
        | exact hne
        | exact ih _ _ hne

/-! ## Claim C6 — the reader never returns an empty frame -/

/-- Claim C6: for every input byte stream, the framed transport reader
fails fast with the base serial error when not connected, raises
`IPXNoResponseError` when no first byte arrives, and on success always
returns a non-empty byte sequence (the guard at the end of the loop
turns an empty captured buffer into `IPXNoResponseError` as well). -/
theorem send_and_receive_listen_never_empty (connected : Bool) (first_byte : Option Nat)
    (chunks : List (List Nat)) (stop_on_string : Option (List Char)) :
    (connected = false →
      send_and_receive_listen connected first_byte chunks stop_on_string =
        .error .ipxSerialErrorNotConnected) ∧
    (connected = true → first_byte = none →
      send_and_receive_listen connected first_byte chunks stop_on_string =
        .error .ipxNoResponseError) ∧
    ∀ bs, send_and_receive_listen connected first_byte chunks stop_on_string = .ok bs →
      bs ≠ [] := by
  refine ⟨fun h => by simp [send_and_receive_listen, h], fun hc hf => ?_, fun bs hok => ?_⟩
  · simp [send_and_receive_listen, hc, hf]
  · unfold send_and_receive_listen at hok
    split at hok
    · exact absurd hok (by simp)
    · rcases hfb : first_byte with _ | b
      · rw [hfb] at hok
        exact absurd hok (by simp)
      · rw [hfb] at hok
        simp only at hok
        split at hok
        · exact absurd hok (by simp)
        · cases hok
          exact listenLoop_ne_nil _ _ _ _ (by simp)

/-- Witness for `send_and_receive_listen_never_empty`: a closed
connection fails fast, and a one-byte response is returned non-empty. -/
theorem send_and_receive_listen_never_empty_witness :
    send_and_receive_listen false none [] none = .error .ipxSerialErrorNotConnected ∧
    ([0x41] ≠ ([] : List Nat)) :=
  ⟨(send_and_receive_listen_never_empty false none [] none).1 rfl,
    (send_and_receive_listen_never_empty true (some 0x41) [] none).2.2 [0x41] (by decide)⟩

/-! ## `IPXSerialCommunicator._decode_string_and_check` -/

/-- Decodes a response as UTF-8 (raising `IPXCorruptedDataError` on
undecodable bytes), strips surrounding whitespace, and — when the
client was constructed with `verify` set and a non-empty expected
response was supplied — checks case-insensitively that the stripped
text starts with the expected confirmation phrase, raising
`IPXVerificationError` (carrying the command and both texts) on a
mismatch. -/
def decode_string_and_check (verify : Bool) (response : List Nat)
    (expected_response : List Char := []) (command : List Char := []) :
    Except PyExn (List Char) :=
  match utf8Decode? response with
  | none => .error .ipxCorruptedDataError
  | some s =>
    let response_str := pyStrip s
    if verify && expected_response ≠ [] then
      if ¬ pyStartswith (pyLower response_str) (pyLower expected_response) then
        .error (.ipxVerificationError command expected_response response_str)
      else .ok response_str
    else .ok response_str

/-! ## Claim C7 — response verification -/

/-- Claim C7: for a verified operation (verification enabled and a
non-empty expected confirmation phrase), a decoded response text that
does not start, case-insensitively, with the phrase raises
`IPXVerificationError` carrying the command and both the expected and
the actual text, while a response that does start with it passes
verification and is returned without error. -/
theorem decode_string_and_check_verification (response : List Nat)
    (command expected s : List Char)
    (hdec : utf8Decode? response = some s) (hexp : expected ≠ []) :
    (pyStartswith (pyLower (pyStrip s)) (pyLower expected) = false →
      decode_string_and_check true response expected command =
        .error (.ipxVerificationError command expected (pyStrip s))) ∧
    (pyStartswith (pyLower (pyStrip s)) (pyLower expected) = true →
      decode_string_and_check true response expected command = .ok (pyStrip s)) := by
  unfold decode_string_and_check
  rw [hdec]
  constructor
  · intro hmiss
    simp [hexp, hmiss]
  · intro hmatch
    simp [hexp, hmatch]

/-- Witness for `decode_string_and_check_verification`: the response
bytes of `" CMD_EXEC done\r\n"` strip to `"CMD_EXEC done"`, which
starts case-insensitively with the expected phrase `"cmd_exec"`, so
verification passes. -/
theorem decode_string_and_check_verification_witness :
    (utf8Decode? (strBytes " CMD_EXEC done\r\n".data) = some " CMD_EXEC done\r\n".data ∧
      "cmd_exec".data ≠ [] ∧
      pyStartswith (pyLower (pyStrip " CMD_EXEC done\r\n".data)) (pyLower "cmd_exec".data) =
        true) ∧
    decode_string_and_check true (strBytes " CMD_EXEC done\r\n".data) "cmd_exec".data
      "op ipx 5 set_gain 3\n".data = .ok (pyStrip " CMD_EXEC done\r\n".data) :=
  ⟨⟨by decide, by decide, by decide⟩,
    (decode_string_and_check_verification (strBytes " CMD_EXEC done\r\n".data)
      "op ipx 5 set_gain 3\n".data "cmd_exec".data " CMD_EXEC done\r\n".data
      (by decide) (by decide)).2 (by decide)⟩

/-! ## Protocol client operations (`IPXSerialCommunicator`)

Each operation is modelled against an abstract transport
`trans : List Char → Except PyExn (List Nat)` standing for
`_send_and_receive_listen` applied to the current device state, and is
instrumented to also return the list of commands it dispatched to the
transport, so that short-circuiting can be stated.  The `string`
data-type flavor of each getter is modelled. -/

/-- Source `IPXSerialCommunicator.get_status` (string flavor): UID 0 is the
broadcast address, so the call logs a warning and returns the empty
string without dispatching; otherwise the rendered command is sent and
the response decoded. -/
def get_status (verify : Bool) (trans : List Char → Except PyExn (List Nat)) (uid : Int) :
    Except PyExn (List Char) × List (List Char) :=
  if uid = 0 then (.ok [], [])
  else
    let command := renderCommand (.get_status (intStr uid))
    match trans command with
    | .error e => (.error e, [command])
    | .ok response => (decode_string_and_check verify response, [command])

/-- Source `IPXSerialCommunicator.get_raw` (string flavor): UID 0
short-circuits to the empty string; otherwise the response is decoded
and every comma-separated field is converted with `int(...)` (a
non-integer field raises `ValueError`) before the string is returned. -/
def get_raw (verify : Bool) (trans : List Char → Except PyExn (List Nat)) (uid : Int) :
    Except PyExn (List Char) × List (List Char) :=
  if uid = 0 then (.ok [], [])
  else
    let command := renderCommand (.get_raw (intStr uid))
    match trans command with
    | .error e => (.error e, [command])
    | .ok response =>
      match decode_string_and_check verify response with
      | .error e => (.error e, [command])
      | .ok response_str =>
        if (pySplit ',' response_str).all (fun x => (pyInt? x).isSome) then
          (.ok response_str, [command])
        else (.error .valueError, [command])

/-- Source `IPXSerialCommunicator.set_gain`: renders and dispatches the
command unconditionally (no UID-0 guard in the source) and verifies the
response against `IPXCommands.Responses.set_gain`. -/
def set_gain (verify : Bool) (trans : List Char → Except PyExn (List Nat))
    (uid gain : Int) : Except PyExn (List Char) × List (List Char) :=
  let command := renderCommand (.set_gain (intStr uid) (intStr gain))
  let expected_response := "CMD_EXEC_Set_Gain: Gain set to".data
  match trans command with
  | .error e => (.error e, [command])
  | .ok response =>
      (decode_string_and_check verify response expected_response command, [command])

/-- Source `IPXSerialCommunicator.set_baud`: renders and dispatches the
command unconditionally (no UID-0 guard in the source) and verifies the
response against `IPXCommands.Responses.set_baud`. -/
def set_baud (verify : Bool) (trans : List Char → Except PyExn (List Nat))
    (uid baud : Int) : Except PyExn (List Char) × List (List Char) :=
  let command := renderCommand (.set_baud (intStr uid) (intStr baud))
  let expected_response := "CMD_EXEC_Set_Baud: Baudrate set to".data
  match trans command with
  | .error e => (.error e, [command])
  | .ok response =>
      (decode_string_and_check verify response expected_response command, [command])

/-! ## Claim C3 — UID-0 broadcast guard -/

/-- Claim C3 as stated is false: the `set_*` operations have no UID-0
guard, so `set_gain` called with UID 0 dispatches its rendered command
to the transport instead of short-circuiting with a no-op. -/
theorem set_gain_uid0_dispatches :
    (set_gain false (fun _ => .error .ipxNoResponseError) 0 3).2 =
      ["op ipx 0 set_gain 3\n".data] ∧
    (set_gain false (fun _ => .error .ipxNoResponseError) 0 3).2 ≠ [] := by
  decide

/-- Claim C3 (amended): the per-device reads `get_status` and `get_raw`
short-circuit on UID 0 with an empty-string result and no transport
dispatch, but every `set_*` operation (here `set_gain` and `set_baud`)
dispatches exactly its rendered command, for every UID including 0. -/
theorem uid0_broadcast_guard (verify : Bool)
    (trans : List Char → Except PyExn (List Nat)) :
    (get_status verify trans 0 = (.ok [], []) ∧
      get_raw verify trans 0 = (.ok [], [])) ∧
    ∀ uid gain baud : Int,
      (set_gain verify trans uid gain).2 =
        [renderCommand (.set_gain (intStr uid) (intStr gain))] ∧
      (set_baud verify trans uid baud).2 =
        [renderCommand (.set_baud (intStr uid) (intStr baud))] := by
  refine ⟨⟨by simp [get_status], by simp [get_raw]⟩, fun uid gain baud => ⟨?_, ?_⟩⟩
  · unfold set_gain
    rcases h : trans (renderCommand (.set_gain (intStr uid) (intStr gain))) with e | r <;>
      simp [h]
  · unfold set_baud
    rcases h : trans (renderCommand (.set_baud (intStr uid) (intStr baud))) with e | r <;>
      simp [h]

/-! ## Retry/escalation helpers (`Failure_handlers.py`)

`retry_on_exception` is a `while True` loop; the embedding gives it
explicit fuel (returning `none` when the fuel runs out, which only an
endless retry streak can cause).  The attempts of the wrapped operation
are modelled as `operation_func : Nat → Except PyExn α` (the outcome of
its n-th call), and the interactive prompt as
`prompt : Nat → Except PyExn (List Char)` (the outcome of its n-th
invocation: the returned choice string, or the `UserAbortError` the
real `prompt_user_on_other_failure` raises when the operator picks
abort or hits Ctrl-C).  The default `handled_exceptions=(Exception,)`
of the source corresponds to `handled = fun _ => true`, since every
constructor of `PyExn` models an `Exception` subclass.  The result
pairs the overall outcome (returned value or uncaught exception) with
the number of prompt invocations.  In the skip branch the source
executes `return result`, but `result` is only ever assigned by a
successful attempt — which returns immediately — so that branch
references an unassigned local and raises `UnboundLocalError`. -/
def retry_on_exception {α : Type} (fuel : Nat) (operation_func : Nat → Except PyExn α)
    (handled : PyExn → Bool) (prompt : Nat → Except PyExn (List Char))
    (attempt prompts_made : Nat) : Option (Except PyExn α × Nat) :=
  match fuel with
  | 0 => none
  | fuel + 1 =>
    match operation_func attempt with
    | .ok result => some (.ok result, prompts_made)
    | .error e =>
      if handled e then
        match prompt prompts_made with
        | .error pe => some (.error pe, prompts_made + 1)
        | .ok choice =>
          if choice = "retry".data then
            retry_on_exception fuel operation_func handled prompt (attempt + 1)
              (prompts_made + 1)
          else if choice = "skip".data then
            some (.error .unboundLocalError, prompts_made + 1)
          else some (.error .userAbortError, prompts_made + 1)
      else some (.error e, prompts_made)

/-! ## Claim C4 — no automatic retry budget in `retry_on_exception` -/

/-- Claim C4 as stated is false: `retry_on_exception` has no
automatic-retry budget — an operation that raises a handled exception
on its first two attempts and succeeds on the third does return its
successful result, but only through two user-prompt invocations (the
operator answering retry each time), not zero. -/
theorem retry_on_exception_prompts_before_budget :
    retry_on_exception 3
        (fun n => if n < 2 then (.error .ipxNoResponseError : Except PyExn Int) else .ok 42)
        (fun _ => true) (fun _ => .ok "retry".data) 0 0 = some (.ok 42, 2) ∧
      (2 : Nat) ≠ 0 := by
  decide

/-- Claim C4 (amended): under the exception-signaled retry flavor, an
operation that raises a handled exception on its first two attempts and
succeeds on the third returns its successful result, with the user
prompt invoked exactly once per failure (twice, each answered with
retry) — the source has no automatic-retry budget that would bypass the
prompt. -/
theorem retry_on_exception_two_failures_then_success {α : Type}
    (operation_func : Nat → Except PyExn α) (handled : PyExn → Bool)
    (prompt : Nat → Except PyExn (List Char)) (e₁ e₂ : PyExn) (v : α)
    (h0 : operation_func 0 = .error e₁) (h1 : operation_func 1 = .error e₂)
    (h2 : operation_func 2 = .ok v)
    (he₁ : handled e₁ = true) (he₂ : handled e₂ = true)
    (hp0 : prompt 0 = .ok "retry".data) (hp1 : prompt 1 = .ok "retry".data) :
    retry_on_exception 3 operation_func handled prompt 0 0 = some (.ok v, 2) := by
  simp [retry_on_exception, h0, h1, h2, he₁, he₂, hp0, hp1]

/-- Witness for `retry_on_exception_two_failures_then_success` at a
concrete fail-fail-succeed operation. -/
theorem retry_on_exception_two_failures_then_success_witness :
    ((fun n => if n < 2 then (.error .valueError : Except PyExn Int) else .ok 7) 0 =
        .error .valueError ∧
      (fun n => if n < 2 then (.error .valueError : Except PyExn Int) else .ok 7) 2 = .ok 7) ∧
    retry_on_exception 3
        (fun n => if n < 2 then (.error .valueError : Except PyExn Int) else .ok 7)
        (fun _ => true) (fun _ => .ok "retry".data) 0 0 = some (.ok 7, 1 + 1) :=
  ⟨⟨by decide, by decide⟩,
    retry_on_exception_two_failures_then_success
      (fun n => if n < 2 then (.error .valueError : Except PyExn Int) else .ok 7)
      (fun _ => true) (fun _ => .ok "retry".data) .valueError .valueError 7
      (by decide) (by decide) (by decide) (by decide) (by decide) rfl rfl⟩

/-! ## Claim C5 — `UserAbortError` is caught by the default handled set -/

/-- Claim C5 is about intent the code does not meet: with the default
`handled_exceptions=(Exception,)`, a `UserAbortError` raised by the
wrapped operation is an instance of the handled set, so
`retry_on_exception` catches it and invokes the user prompt; an
operator answering retry makes the loop swallow the abort entirely and
return a later success.  A propagating abort would instead be the
outcome `(.error .userAbortError)` with zero prompt invocations. -/
theorem retry_on_exception_catches_user_abort :
    retry_on_exception 2
        (fun n => if n = 0 then (.error .userAbortError : Except PyExn Int) else .ok 7)
        (fun _ => true) (fun _ => .ok "retry".data) 0 0 = some (.ok 7, 1) ∧
      retry_on_exception 2
          (fun n => if n = 0 then (.error .userAbortError : Except PyExn Int) else .ok 7)
          (fun _ => true) (fun _ => .ok "retry".data) 0 0 ≠
        some (.error .userAbortError, 0) := by
  decide

/-! ## Geosense axis conversion (`IPXDataloggerTester.gxm_measure_test`)

The float arithmetic is modelled over `ℚ`; the transcendental
`math.degrees(math.asin(·))` on the valid domain `[-1, 1]` is
abstracted as a parameter `deg_asin : ℚ → ℚ`, while its domain error
(`math.asin` raises `ValueError: math domain error` outside `[-1, 1]`)
is modelled explicitly. -/

/-- Python `math.trunc` (truncation toward zero) of a rational. -/
def pyTrunc (q : ℚ) : Int := if 0 ≤ q then ⌊q⌋ else -⌊-q⌋

/-- Python `math.trunc(v * 1000) / 1000` — truncation to 3 decimal places. -/
def trunc3 (v : ℚ) : ℚ := (pyTrunc (v * 1000) : ℚ) / 1000

/-- Python `max(-1.0, min(1.0, raw))` — the clamped axis value the source
computes (and logs) but does not feed to `math.asin`. -/
def clampAxis (x : ℚ) : ℚ := max (-1) (min 1 x)

/-- Python `math.degrees(math.asin(x))` as executed by Python: a domain error
outside `[-1, 1]`, and otherwise the abstracted transcendental value. -/
def pyAsinDeg (deg_asin : ℚ → ℚ) (x : ℚ) : Except PyExn ℚ :=
  if x < -1 ∨ 1 < x then .error .valueError else .ok (deg_asin x)

/-- The axis-angle computation of `gxm_measure_test`: the source
computes `AxisA_clamped` only for the warning and passes the raw value
`AxisA_raw` to `math.asin`, then truncates the result to 3 decimals. -/
def gxm_axisA (deg_asin : ℚ → ℚ) (axisA_raw : ℚ) : Except PyExn ℚ :=
  match pyAsinDeg deg_asin axisA_raw with
  | .error e => .error e
  | .ok v => .ok (trunc3 v)

/-- Modelled from the spec: the claimed conversion
`degrees(asin(clamp(raw, -1, 1)))` truncated to 3 decimals, which never
evaluates `asin` outside its domain. -/
def gxm_axisA_claimed (deg_asin : ℚ → ℚ) (axisA_raw : ℚ) : ℚ :=
  trunc3 (deg_asin (clampAxis axisA_raw))

/-! ## Claim C9 — the clamped value is never fed to `asin` -/

/-- Claim C9 is the intended behaviour, but the code computes the
clamped value only for a log message and feeds the raw value to
`math.asin`: at the out-of-range raw value `2` the conversion raises a
`ValueError` (math domain error) even though the clamped value `1` is
in the domain and the claimed conversion is defined, so the code result
differs from the claimed `degrees(asin(clamp(raw)))` truncated to 3
decimals (shown here with `deg_asin` instantiated to the identity). -/
theorem gxm_axisA_domain_error_at_2 :
    gxm_axisA (fun q => q) 2 = .error .valueError ∧
    clampAxis 2 = 1 ∧
    pyAsinDeg (fun q => q) (clampAxis 2) = .ok 1 ∧
    gxm_axisA_claimed (fun q => q) 2 = 1 ∧
    gxm_axisA (fun q => q) 2 ≠ .ok (gxm_axisA_claimed (fun q => q) 2) := by
  have hclamp : clampAxis 2 = 1 := by
    unfold clampAxis
    norm_num
  have htrunc : trunc3 1 = 1 := by
    unfold trunc3 pyTrunc
    norm_num
  refine ⟨?_, hclamp, ?_, ?_, ?_⟩
  · unfold gxm_axisA pyAsinDeg
    norm_num
  · unfold pyAsinDeg
    rw [hclamp]
    norm_num
  · unfold gxm_axisA_claimed
    rw [hclamp, htrunc]
  · have h2 : gxm_axisA (fun q => q) 2 = .error .valueError := by
      unfold gxm_axisA pyAsinDeg
      norm_num
    rw [h2]
    simp
